import Mathlib

/-!
Shallow embedding of the WFGY orchestration core of this repository
(`organized_tutorial/scripts/wfgy_validation.py`, `wfgy_attention.py`,
`wfgy_pipeline.py`, `wfgy_contradiction.py`) together with theorems that
settle the spec claims about it.

Modelling conventions:
* Python strings are Lean `String`s; `str.lower()` is `pyLower` (ASCII
  lowering via `Char.toLower`, which matches Python on the ASCII texts the
  code handles); `needle in haystack` is the executable substring test
  `hasSub`.
* The regular expressions appearing in the source are all alternations of
  literal substrings (the lone quantifier `users?` makes a trailing `s`
  optional, so matching it is matching the literal `user`), except for the
  contradiction patterns of the form `a.*b.*c`, which are modelled by
  `searchSeq`: the literal segments must occur in order, with only
  non-newline characters between consecutive segments (Python's `.` does
  not match a newline).
* Python floats are modelled as exact rationals `ℚ`.
* The external command runner of the pipeline (§6 of the spec) is an
  oracle `String → RunOutcome`; `subprocess` side effects of rollback
  commands are recorded in an observation log `rollbacksRun`.
-/

namespace WFGY

/-- Does `hay` begin with `pat`?  (List-of-chars version of Python's
`str.startswith`, used to build the substring test.) -/
def beginsWith : List Char → List Char → Bool
  | _, [] => true
  | [], _ :: _ => false
  | a :: as, b :: bs => a == b && beginsWith as bs

/-- `hasSub hay pat`: does `pat` occur as a contiguous substring of `hay`?
Models Python's `pat in hay`. -/
def hasSub : List Char → List Char → Bool
  | [], pat => beginsWith [] pat
  | c :: t, pat => beginsWith (c :: t) pat || hasSub t pat

/-- Substring test taking the needle as a string literal. -/
def hasSubS (hay : List Char) (pat : String) : Bool :=
  hasSub hay pat.toList

/-- Python's `str.lower()` on the ASCII texts handled by the code. -/
def pyLower (s : String) : List Char :=
  s.toList.map Char.toLower

/-- `re.search` of an alternation of literal patterns (case already
normalised by the caller, as the source lowercases first). -/
def anyKeyword (hay : List Char) (alts : List String) : Bool :=
  alts.any (fun a => hasSubS hay a)

/-- Python's binary `min` on floats (the first argument wins a tie). -/
def pyMin (a b : ℚ) : ℚ := if b < a then b else a

/-- Python's binary `max` on floats (the first argument wins a tie). -/
def pyMax (a b : ℚ) : ℚ := if a < b then b else a

/-! ## `wfgy_validation.py`: BBMCValidator -/

/-- `IdeaComplexity` enum of `wfgy_validation.py`. -/
inductive IdeaComplexity
  | simple
  | medium
  | complex
deriving DecidableEq, Repr

/-- `IdeaValidationResult` dataclass of `wfgy_validation.py`. -/
structure IdeaValidationResult where
  is_valid : Bool
  complexity : IdeaComplexity
  missing_elements : List String
  recommendations : List String
  estimated_agents : Nat
  suggested_sparc_mode : String
  suggested_topology : String
deriving DecidableEq, Repr

/-- `BBMCValidator.required_elements`: each category with the literal
alternatives of its regular expression (`users?` matches iff `user`
occurs). -/
def requiredElements : List (String × List String) :=
  [("users", ["user", "audience", "target", "who"]),
   ("goal", ["goal", "objective", "purpose", "problem", "solve"]),
   ("inputs", ["input", "data", "source", "feed"]),
   ("outputs", ["output", "produce", "result", "deliver"]),
   ("runtime", ["runtime", "deploy", "environment", "local", "cloud"])]

/-- `BBMCValidator.sparc_mode_keywords`. -/
def sparcModeKeywords : List (String × List String) :=
  [("architect", ["architecture", "system design", "microservices", "distributed", "scalable"]),
   ("api", ["api", "backend", "service", "rest", "endpoint"]),
   ("ui", ["frontend", "interface", "web", "mobile", "dashboard"]),
   ("ml", ["machine learning", "ai", "prediction", "model", "data science"]),
   ("tdd", ["test", "testing", "quality", "tdd", "bdd"]),
   ("devops", ["deploy", "ci/cd", "docker", "kubernetes", "infrastructure"])]

/-- The "simple" keyword list of `BBMCValidator._assess_complexity`. -/
def simpleIndicators : List String :=
  ["simple", "basic", "single", "one", "individual", "personal",
   "task", "todo", "list", "note", "calculator"]

/-- The "complex" keyword list of `BBMCValidator._assess_complexity`. -/
def complexIndicators : List String :=
  ["comprehensive", "enterprise", "distributed", "microservices",
   "real-time", "machine learning", "ai", "analytics", "dashboard",
   "multi-user", "scalable", "high-performance", "production"]

/-- Number of keywords of `kws` occurring in the (lowered) text: the
`sum(1 for word in ... if word in idea_lower)` idiom. -/
def countHits (low : List Char) (kws : List String) : Nat :=
  (kws.filter (fun w => hasSubS low w)).length

/-- `BBMCValidator._assess_complexity`. -/
def assessComplexity (idea_text : String) : IdeaComplexity :=
  let idea_lower := pyLower idea_text
  let simple_score := countHits idea_lower simpleIndicators
  let complex_score := countHits idea_lower complexIndicators
  if 3 ≤ complex_score then IdeaComplexity.complex
  else if 2 ≤ simple_score then IdeaComplexity.simple
  else IdeaComplexity.medium

/-- Python's `max(iterable, key=...)` over an association list of scores:
returns the first pair with the maximal score (later pairs replace the
current best only on a strictly greater score). -/
def firstMax (l : List (String × Nat)) : String × Nat :=
  match l with
  | [] => ("", 0)
  | h :: t => t.foldl (fun best p => if best.2 < p.2 then p else best) h

/-- Keyword scores of every SPARC mode for `_suggest_sparc_mode`. -/
def modeScores (table : List (String × List String)) (low : List Char) :
    List (String × Nat) :=
  table.map (fun p => (p.1, countHits low p.2))

/-- `BBMCValidator._suggest_sparc_mode`. -/
def suggestSparcMode (idea_text : String) : String :=
  let idea_lower := pyLower idea_text
  let best := firstMax (modeScores sparcModeKeywords idea_lower)
  if best.2 == 0 then "architect" else best.1

/-- `parallel_indicators` of `BBMCValidator._suggest_topology`. -/
def parallelIndicators : List String :=
  ["microservices", "distributed", "real-time", "analytics",
   "dashboard", "multiple", "integration", "api"]

/-- `BBMCValidator._suggest_topology` (note: the source tests
`any(indicator in idea_lower ...)`, i.e. a single parallel keyword hit
already selects `swarm`, and the agent count returned there is the
constant 7). -/
def suggestTopology (complexity : IdeaComplexity) (idea_text : String) :
    String × Nat :=
  let idea_lower := pyLower idea_text
  let needs_parallel := parallelIndicators.any (fun i => hasSubS idea_lower i)
  if complexity = IdeaComplexity.complex || needs_parallel then ("swarm", 7)
  else if complexity = IdeaComplexity.medium then ("swarm", 5)
  else ("hive", 3)

/-- `BBMCValidator._generate_recommendations`. -/
def generateRecommendations (missing_elements : List String)
    (complexity : IdeaComplexity) : List String :=
  (if missing_elements.contains "users" then
    ["Specify target users/audience for better scope definition"] else []) ++
  (if missing_elements.contains "goal" then
    ["Define clear problem/goal to solve"] else []) ++
  (if missing_elements.contains "inputs" then
    ["Describe data sources and inputs needed"] else []) ++
  (if missing_elements.contains "outputs" then
    ["Specify expected outputs and deliverables"] else []) ++
  (if missing_elements.contains "runtime" then
    ["Mention deployment environment (local/cloud)"] else []) ++
  (if complexity = IdeaComplexity.simple then
    ["Consider adding more technical details for better implementation"] else []) ++
  (if complexity = IdeaComplexity.complex then
    ["Consider breaking down into smaller components for better manageability"] else [])

/-- The missing/found accumulation loop of
`BBMCValidator.validate_idea_structure`: first component the missing
element names, second the found ones, both in table order. -/
def collectElements (low : List Char) :
    List (String × List String) → List String × List String
  | [] => ([], [])
  | (name, alts) :: rest =>
      let acc := collectElements low rest
      if anyKeyword low alts then (acc.1, name :: acc.2)
      else (name :: acc.1, acc.2)

/-- `BBMCValidator.validate_idea_structure`. -/
def validateIdeaStructure (idea_text : String) : IdeaValidationResult :=
  let idea_lower := pyLower idea_text
  let acc := collectElements idea_lower requiredElements
  let missing_elements := acc.1
  let found_elements := acc.2
  let complexity := assessComplexity idea_text
  let suggested_sparc_mode := suggestSparcMode idea_text
  let topo := suggestTopology complexity idea_text
  let recommendations := generateRecommendations missing_elements complexity
  let is_valid := decide (3 ≤ found_elements.length)
  { is_valid := is_valid
    complexity := complexity
    missing_elements := missing_elements
    recommendations := recommendations
    estimated_agents := topo.2
    suggested_sparc_mode := suggested_sparc_mode
    suggested_topology := topo.1 }

/-! ## `wfgy_attention.py`: BBAMManager -/

/-- `AttentionPriority` enum of `wfgy_attention.py`. -/
inductive AttentionPriority
  | critical
  | high
  | medium
  | low
deriving DecidableEq, Repr

/-- The `.value` string of each `AttentionPriority` member. -/
def AttentionPriority.pyValue : AttentionPriority → String
  | .critical => "critical"
  | .high => "high"
  | .medium => "medium"
  | .low => "low"

/-- `ResourceType` enum of `wfgy_attention.py`. -/
inductive ResourceType
  | agents
  | time
  | memory
  | complexity
deriving DecidableEq, Repr

/-- `AttentionTarget` dataclass of `wfgy_attention.py`. -/
structure AttentionTarget where
  name : String
  priority : AttentionPriority
  resource_type : ResourceType
  impact_score : ℚ
  description : String
  optimization_strategy : String
deriving DecidableEq, Repr

/-- `BBAMManager._define_attention_targets` (a dict in the source; its
values in insertion order, which is what `list(...values())` yields). -/
def attentionTargets : List AttentionTarget :=
  [{ name := "idea_clarity", priority := .critical, resource_type := .agents,
     impact_score := 0.95,
     description := "Clarity and completeness of user idea",
     optimization_strategy := "Validate idea structure before orchestration" },
   { name := "sparc_mode_selection", priority := .critical, resource_type := .agents,
     impact_score := 0.90,
     description := "Optimal SPARC mode for project type",
     optimization_strategy := "Analyze idea content for mode selection" },
   { name := "topology_optimization", priority := .critical, resource_type := .agents,
     impact_score := 0.85,
     description := "Optimal agent topology and count",
     optimization_strategy := "Match topology to project complexity" },
   { name := "agent_coordination", priority := .high, resource_type := .time,
     impact_score := 0.75,
     description := "Efficient agent communication and coordination",
     optimization_strategy := "Optimize communication patterns" },
   { name := "memory_management", priority := .high, resource_type := .memory,
     impact_score := 0.70,
     description := "Efficient memory usage across agents",
     optimization_strategy := "Implement memory sharing and cleanup" },
   { name := "error_handling", priority := .high, resource_type := .complexity,
     impact_score := 0.65,
     description := "Robust error detection and recovery",
     optimization_strategy := "Implement comprehensive error handling" },
   { name := "progress_tracking", priority := .medium, resource_type := .time,
     impact_score := 0.50,
     description := "Real-time progress monitoring",
     optimization_strategy := "Implement progress indicators" },
   { name := "resource_monitoring", priority := .medium, resource_type := .memory,
     impact_score := 0.45,
     description := "System resource usage monitoring",
     optimization_strategy := "Monitor CPU, memory, and network usage" },
   { name := "logging", priority := .low, resource_type := .memory,
     impact_score := 0.25,
     description := "Detailed logging and debugging",
     optimization_strategy := "Implement structured logging" },
   { name := "documentation", priority := .low, resource_type := .time,
     impact_score := 0.20,
     description := "Real-time documentation generation",
     optimization_strategy := "Generate documentation as needed" }]

/-- `clarity_indicators` of `BBAMManager._analyze_idea_clarity`: the five
completeness categories of `requiredElements` plus `technical_details`. -/
def clarityIndicators : List (String × List String) :=
  requiredElements ++
    [("technical_details", ["api", "database", "framework", "language", "architecture"])]

/-- `BBAMManager._analyze_idea_clarity`: fraction of the six indicator
categories matched, +0.1 bonus for `technical|architecture|framework`,
−0.1 penalty for `something|anything|whatever`, clamped to [0, 1]. -/
def analyzeIdeaClarity (idea_text : String) : ℚ :=
  let idea_lower := pyLower idea_text
  let found_elements : Nat :=
    (clarityIndicators.filter (fun p => anyKeyword idea_lower p.2)).length
  let total_elements : Nat := clarityIndicators.length
  let base_score : ℚ := (found_elements : ℚ) / (total_elements : ℚ)
  let technical_bonus : ℚ :=
    if anyKeyword idea_lower ["technical", "architecture", "framework"] then 0.1 else 0
  let vagueness_penalty : ℚ :=
    if anyKeyword idea_lower ["something", "anything", "whatever"] then 0.1 else 0
  pyMin 1 (pyMax 0 (base_score + technical_bonus - vagueness_penalty))

/-- `mode_keywords` of `BBAMManager._determine_optimal_sparc_mode` (same
table contents as the validator's). -/
def bbamModeKeywords : List (String × List String) :=
  [("architect", ["architecture", "system design", "microservices", "distributed", "scalable"]),
   ("api", ["api", "backend", "service", "rest", "endpoint"]),
   ("ui", ["frontend", "interface", "web", "mobile", "dashboard"]),
   ("ml", ["machine learning", "ai", "prediction", "model", "data science"]),
   ("tdd", ["test", "testing", "quality", "tdd", "bdd"]),
   ("devops", ["deploy", "ci/cd", "docker", "kubernetes", "infrastructure"])]

/-- `BBAMManager._determine_optimal_sparc_mode`. -/
def determineOptimalSparcMode (idea_text : String) : String :=
  let idea_lower := pyLower idea_text
  let best := firstMax (modeScores bbamModeKeywords idea_lower)
  if 0 < best.2 then best.1 else "architect"

/-- The `{topology, agent_count, reasoning}` dict returned by
`BBAMManager._determine_optimal_topology`. -/
structure TopologyPlan where
  topology : String
  agent_count : Nat
  reasoning : String
deriving DecidableEq, Repr

/-- `parallel_indicators` of `BBAMManager._determine_optimal_topology`
(same list as the validator's). -/
def bbamParallelIndicators : List String :=
  ["microservices", "distributed", "real-time", "analytics",
   "dashboard", "multiple", "integration", "api"]

/-- `complexity_scores.get(complexity.lower(), 2)`. -/
def complexityScoreOf (complexity : String) : Nat :=
  if pyLower complexity = "simple".toList then 1
  else if pyLower complexity = "medium".toList then 2
  else if pyLower complexity = "complex".toList then 3
  else 2

/-- `BBAMManager._determine_optimal_topology`. -/
def determineOptimalTopology (complexity : String) (idea_text : String) :
    TopologyPlan :=
  let complexity_score := complexityScoreOf complexity
  let idea_lower := pyLower idea_text
  let parallel_score := countHits idea_lower bbamParallelIndicators
  let pair : String × Nat :=
    if 3 ≤ complexity_score || 2 ≤ parallel_score then ("swarm", min 8 (5 + complexity_score))
    else if 2 ≤ complexity_score then ("swarm", 5)
    else ("hive", 3)
  { topology := pair.1
    agent_count := pair.2
    reasoning := "Complexity: " ++ toString complexity_score ++
      ", Parallel indicators: " ++ toString parallel_score }

/-- The in-place priority adjustment of one target inside
`BBAMManager._get_attention_priorities` (the `if`/`elif` over
`target.name`). -/
def promoteTarget (clarity_score : ℚ) (complexity : String)
    (t : AttentionTarget) : AttentionTarget :=
  if t.name = "idea_clarity" ∧ clarity_score < 0.7 then
    { t with priority := .critical }
  else if t.name = "topology_optimization" ∧ pyLower complexity = "complex".toList then
    { t with priority := .critical }
  else t

/-- Effect of the promotion loop of `_get_attention_priorities` on the
shared catalog entries (the loop mutates the `AttentionTarget` objects of
`self.attention_targets` in place). -/
def promoteTargets (clarity_score : ℚ) (complexity : String) :
    List AttentionTarget :=
  attentionTargets.map (promoteTarget clarity_score complexity)

/-- Python string comparison `a < b` (code-point lexicographic). -/
def strLtChars : List Char → List Char → Bool
  | [], [] => false
  | [], _ :: _ => true
  | _ :: _, [] => false
  | a :: as, b :: bs =>
      if a.toNat < b.toNat then true
      else if b.toNat < a.toNat then false
      else strLtChars as bs

/-- The sort key `(x.priority.value, x.impact_score)` of
`_get_attention_priorities`, compared the way Python compares the tuple:
first by the priority's *string* value, then by the score. -/
def sortKeyLt (x y : AttentionTarget) : Bool :=
  strLtChars x.priority.pyValue.toList y.priority.pyValue.toList ||
    (x.priority.pyValue == y.priority.pyValue &&
      decide (x.impact_score < y.impact_score))

/-- Stable descending insertion for `sorted(..., reverse=True)`: an
element moves past exactly those elements whose key is strictly greater
than its own, so equal keys keep their original order. -/
def insertDesc (x : AttentionTarget) : List AttentionTarget → List AttentionTarget
  | [] => [x]
  | y :: ys => if sortKeyLt x y then y :: insertDesc x ys else x :: y :: ys

/-- `sorted(all_targets, key=..., reverse=True)` as a stable descending
insertion sort. -/
def sortTargetsDesc : List AttentionTarget → List AttentionTarget
  | [] => []
  | x :: xs => insertDesc x (sortTargetsDesc xs)

/-- `BBAMManager._get_attention_priorities`: promote, sort by
`(priority.value, impact_score)` descending, take the first five. -/
def getAttentionPriorities (clarity_score : ℚ) (complexity : String) :
    List AttentionTarget :=
  (sortTargetsDesc (promoteTargets clarity_score complexity)).take 5

/-! ## `wfgy_contradiction.py`: BBCRDetector and BBCRResolver -/

/-- `ContradictionType` enum. -/
inductive ContradictionType
  | architecture_mismatch
  | technology_conflict
  | requirement_violation
  | performance_issue
  | security_violation
  | scalability_problem
deriving DecidableEq, Repr

/-- `ContradictionSeverity` enum. -/
inductive ContradictionSeverity
  | low
  | medium
  | high
  | critical
deriving DecidableEq, Repr

/-- `Contradiction` dataclass. -/
structure Contradiction where
  type : ContradictionType
  severity : ContradictionSeverity
  description : String
  detected_in : String
  expected : String
  actual : String
  rollback_action : String
deriving DecidableEq, Repr

/-- `searchSeq segs hay`: `re.search` of a pattern `p₁.*p₂.*…*pₙ` whose
literal segments are `segs`.  The first segment may start anywhere; each
later segment must follow the previous one with only non-newline
characters in between (Python's `.` does not match `\n`).
`afterSeq` handles the later segments; its gap skipping stops at `\n`. -/
def afterSeq : List (List Char) → List Char → Bool
  | [], _ => true
  | seg :: rest, hay =>
      let go : List Char → Bool :=
        fun l => (beginsWith l seg && afterSeq rest (l.drop seg.length))
      goGap go hay
where
  /-- Skip any number of non-newline characters before trying `go`. -/
  goGap (go : List Char → Bool) : List Char → Bool
    | [] => go []
    | c :: t => go (c :: t) || (c != '\n' && goGap go t)

/-- Top-level `re.search` for a `.*`-separated pattern: try every start
position (the initial scan may cross newlines). -/
def searchSeq (segs : List (List Char)) (hay : List Char) : Bool :=
  match segs with
  | [] => true
  | seg :: rest =>
      let try1 : List Char → Bool :=
        fun l => beginsWith l seg && afterSeq rest (l.drop seg.length)
      anyPos try1 hay
where
  /-- Try the match at every suffix of the haystack. -/
  anyPos (p : List Char → Bool) : List Char → Bool
    | [] => p []
    | c :: t => p (c :: t) || anyPos p t

/-- `re.search(pattern, text, re.IGNORECASE)` for one contradiction
pattern: both sides lowered, the pattern's `.*`-separated literal
segments given as strings. -/
def searchPat (segs : List String) (text : String) : Bool :=
  searchSeq (segs.map (fun s => s.toList)) (pyLower text)

/-- `BBCRDetector._define_contradiction_patterns`: every entry as
(type, `.*`-separated segments of the regular expression, description),
in the dict's insertion order.  `node\.js` escapes the dot, so its
segment is the literal `node.js`. -/
def contradictionPatterns :
    List (ContradictionType × List String × String) :=
  [(.architecture_mismatch, ["microservices", "monolith"], "Architecture style mismatch"),
   (.architecture_mismatch, ["monolith", "microservices"], "Architecture style mismatch"),
   (.architecture_mismatch, ["serverless", "stateful"], "State management contradiction"),
   (.architecture_mismatch, ["stateful", "serverless"], "State management contradiction"),
   (.technology_conflict, ["python", "node.js", "same", "service"], "Multiple languages in single service"),
   (.technology_conflict, ["sql", "nosql", "same", "data"], "Database type conflict"),
   (.requirement_violation, ["real-time", "batch", "processing"], "Processing mode contradiction"),
   (.requirement_violation, ["high-availability", "single", "point", "failure"], "Availability requirement violation"),
   (.performance_issue, ["high-performance", "interpreted", "language"], "Performance expectation mismatch"),
   (.performance_issue, ["low-latency", "network", "call"], "Latency expectation contradiction"),
   (.security_violation, ["secure", "plain", "text", "password"], "Security practice violation"),
   (.security_violation, ["authentication", "no", "auth"], "Authentication requirement violation"),
   (.scalability_problem, ["scalable", "single", "server"], "Scalability architecture contradiction"),
   (.scalability_problem, ["distributed", "centralized", "database"], "Distribution contradiction")]

/-- The original regex text of a pattern (the `Found: {pattern}` field),
rebuilt by joining the segments with `.*` (with the `\.` escape of
`node\.js` restored). -/
def patternText (segs : List String) : String :=
  String.intercalate ".*"
    (segs.map (fun s => if s = "node.js" then "node\\.js" else s))

/-- `BBCRDetector._assess_severity`. -/
def assessSeverity : ContradictionType → ContradictionSeverity
  | .architecture_mismatch => .high
  | .technology_conflict => .medium
  | .requirement_violation => .critical
  | .performance_issue => .high
  | .security_violation => .critical
  | .scalability_problem => .high

/-- `BBCRDetector._get_rollback_action`. -/
def getRollbackAction : ContradictionType → String
  | .architecture_mismatch => "Rollback to previous architecture decision"
  | .technology_conflict => "Review and align technology stack"
  | .requirement_violation => "Rollback to requirement validation stage"
  | .performance_issue => "Optimize or change technology choice"
  | .security_violation => "Rollback to security review stage"
  | .scalability_problem => "Reconsider architecture for scalability"

/-- `tech_keywords` of `BBCRDetector._extract_technologies`. -/
def techKeywords : List String :=
  ["python", "nodejs", "react", "angular", "vue", "java", "golang", "rust",
   "postgresql", "mongodb", "redis", "mysql", "sqlite",
   "docker", "kubernetes", "aws", "azure", "gcp",
   "express", "fastapi", "django", "flask", "spring"]

/-- `arch_keywords` of `BBCRDetector._extract_architecture_requirements`. -/
def archKeywords : List String :=
  ["microservices", "monolith", "serverless", "real-time",
   "high-availability", "scalable", "distributed", "centralized"]

/-- `BBCRDetector._extract_technologies`. -/
def extractTechnologies (text : String) : List String :=
  techKeywords.filter (fun tech => hasSubS (pyLower text) tech)

/-- `BBCRDetector._extract_architecture_requirements`. -/
def extractArchitectureRequirements (text : String) : List String :=
  archKeywords.filter (fun arch => hasSubS (pyLower text) arch)

/-- `BBCRDetector.technology_compatibility`. -/
def technologyCompatibility : List (String × List String) :=
  [("python", ["fastapi", "django", "flask", "postgresql", "redis"]),
   ("nodejs", ["express", "nestjs", "mongodb", "redis", "postgresql"]),
   ("react", ["typescript", "javascript", "nodejs", "express"]),
   ("microservices", ["docker", "kubernetes", "api-gateway", "service-mesh"]),
   ("serverless", ["aws-lambda", "azure-functions", "stateless", "event-driven"]),
   ("real-time", ["websockets", "server-sent-events", "polling"]),
   ("high-performance", ["golang", "rust", "c++", "compiled-languages"])]

/-- `BBCRDetector._are_compatible`. -/
def areCompatible (tech1 tech2 : String) : Bool :=
  technologyCompatibility.any (fun p =>
    (tech1 == p.1 && p.2.contains tech2) || (tech2 == p.1 && p.2.contains tech1))

/-- `BBCRDetector.architecture_constraints`. -/
def architectureConstraints : List (String × List String) :=
  [("microservices", ["distributed", "api-gateway", "service-discovery"]),
   ("monolith", ["single-deployment", "shared-database"]),
   ("serverless", ["stateless", "event-driven", "auto-scaling"]),
   ("real-time", ["websockets", "low-latency", "persistent-connections"]),
   ("high-availability", ["redundancy", "load-balancing", "failover"])]

/-- The pattern-scan loop of `BBCRDetector.detect_contradictions`. -/
def patternContradictions (implementation_output : String) : List Contradiction :=
  contradictionPatterns.filterMap (fun entry =>
    if searchPat entry.2.1 implementation_output then
      some { type := entry.1
             severity := assessSeverity entry.1
             description := entry.2.2
             detected_in := "implementation_output"
             expected := "Consistent architecture and technology choices"
             actual := "Found: " ++ patternText entry.2.1
             rollback_action := getRollbackAction entry.1 }
    else none)

/-- `BBCRDetector._check_technology_compatibility`. -/
def checkTechnologyCompatibility (idea_text implementation_output : String) :
    List Contradiction :=
  let idea_tech := extractTechnologies idea_text
  let impl_tech := extractTechnologies implementation_output
  idea_tech.flatMap (fun tech1 =>
    impl_tech.filterMap (fun tech2 =>
      if tech1 ≠ tech2 ∧ ¬ areCompatible tech1 tech2 = true then
        some { type := .technology_conflict
               severity := .medium
               description := "Incompatible technologies: " ++ tech1 ++ " and " ++ tech2
               detected_in := "technology_analysis"
               expected := "Compatible technology stack with " ++ tech1
               actual := "Found incompatible " ++ tech2
               rollback_action := "Review and align technology choices" }
      else none))

/-- `str(list)` rendering of a Python list of strings, used in the
`expected`/`actual` fields of the architecture contradictions. -/
def pyStrList (l : List String) : String :=
  "[" ++ String.intercalate ", " (l.map (fun s => "\x27" ++ s ++ "\x27")) ++ "]"

/-- `BBCRDetector._check_architecture_constraints`. -/
def checkArchitectureConstraints (idea_text implementation_output : String) :
    List Contradiction :=
  let idea_arch := extractArchitectureRequirements idea_text
  let impl_arch := extractArchitectureRequirements implementation_output
  idea_arch.filterMap (fun arch_req =>
    if impl_arch.contains arch_req then none
    else
      let required_components :=
        ((architectureConstraints.find? (fun p => p.1 == arch_req)).map Prod.snd).getD []
      let missing_components :=
        required_components.filter (fun comp => ¬ impl_arch.contains comp = true)
      if missing_components.isEmpty then none
      else
        some { type := .architecture_mismatch
               severity := .high
               description := "Missing architecture components for " ++ arch_req
               detected_in := "architecture_analysis"
               expected := "Architecture " ++ arch_req ++ " with components: " ++
                 pyStrList required_components
               actual := "Missing: " ++ pyStrList missing_components
               rollback_action := "Add missing architecture components" })

/-- `BBCRDetector.detect_contradictions`. -/
def detectContradictions (idea_text implementation_output : String) :
    List Contradiction :=
  patternContradictions implementation_output ++
    checkTechnologyCompatibility idea_text implementation_output ++
    checkArchitectureConstraints idea_text implementation_output

/-- `BBCRResolver._needs_rollback` (`if critical_contradictions:` is
Python list truthiness, i.e. non-emptiness). -/
def needsRollback (contradictions : List Contradiction) : Bool :=
  if (contradictions.filter (fun c => c.severity == .critical)).isEmpty = false then true
  else if 2 ≤ (contradictions.filter (fun c => c.severity == .high)).length then true
  else false

/-- `BBCRResolver._count_severity_levels`. -/
def countSeverityLevels (contradictions : List Contradiction) :
    Nat × Nat × Nat × Nat :=
  ((contradictions.filter (fun c => c.severity == .low)).length,
   (contradictions.filter (fun c => c.severity == .medium)).length,
   (contradictions.filter (fun c => c.severity == .high)).length,
   (contradictions.filter (fun c => c.severity == .critical)).length)

/-- `BBCRResolver._generate_corrective_actions`. -/
def generateCorrectiveActions (contradictions : List Contradiction) :
    List String :=
  contradictions.map (fun c =>
    if c.severity = .critical ∨ c.severity = .high then
      "CRITICAL: " ++ c.rollback_action
    else
      "WARNING: " ++ c.rollback_action)

/-- The result dict of `BBCRResolver.resolve_contradictions`. -/
structure ResolveResult where
  contradictions_found : Nat
  severity_distribution : Nat × Nat × Nat × Nat
  needs_rollback : Bool
  contradictions : List Contradiction
  corrective_actions : List String
  can_proceed : Bool
deriving DecidableEq, Repr

/-- `BBCRResolver.resolve_contradictions`. -/
def resolveContradictions (idea_text implementation_output : String) :
    ResolveResult :=
  let contradictions := detectContradictions idea_text implementation_output
  { contradictions_found := contradictions.length
    severity_distribution := countSeverityLevels contradictions
    needs_rollback := needsRollback contradictions
    contradictions := contradictions
    corrective_actions := generateCorrectiveActions contradictions
    can_proceed := ! needsRollback contradictions }

/-! ## `wfgy_pipeline.py`: BBPFPipeline -/

/-- `PipelineStage` enum (declaration order is the execution order). -/
inductive PipelineStage
  | validation
  | analysis
  | planning
  | implementation
  | testing
  | deployment
deriving DecidableEq, Repr

/-- `list(PipelineStage)`: the members in declaration order. -/
def stageList : List PipelineStage :=
  [.validation, .analysis, .planning, .implementation, .testing, .deployment]

/-- Position of a stage in the declaration order. -/
def stageIdx : PipelineStage → Nat
  | .validation => 0
  | .analysis => 1
  | .planning => 2
  | .implementation => 3
  | .testing => 4
  | .deployment => 5

/-- `PipelineStatus` enum. -/
inductive PipelineStatus
  | pending
  | running
  | success
  | failed
  | rollback
deriving DecidableEq, Repr

/-- `PipelineStep` dataclass. -/
structure PipelineStep where
  stage : PipelineStage
  command : String
  dependencies : List PipelineStage
  rollback_command : Option String := none
  validation_check : Option String := none
  timeout : Nat := 300
deriving DecidableEq, Repr

/-- `PipelineResult` dataclass. -/
structure PipelineResult where
  stage : PipelineStage
  status : PipelineStatus
  output : String
  error : Option String := none
  execution_time : ℚ := 0
deriving DecidableEq, Repr

/-- `BBPFPipeline._define_pipeline_steps` (the dict as a total lookup). -/
def pipelineSteps : PipelineStage → PipelineStep
  | .validation =>
    { stage := .validation
      command := "python3 wfgy_validation.py"
      dependencies := []
      validation_check := some "validate_idea_structure"
      rollback_command := some "echo \x27Validation failed - cannot proceed\x27" }
  | .analysis =>
    { stage := .analysis
      command := "claude-flow sparc architect \x27Analyze requirements and suggest architecture\x27"
      dependencies := [.validation]
      validation_check := some "check_analysis_output"
      rollback_command := some "echo \x27Analysis failed - rollback to validation\x27" }
  | .planning =>
    { stage := .planning
      command := "claude-flow swarm \x27Create detailed implementation plan\x27"
      dependencies := [.analysis]
      validation_check := some "check_planning_output"
      rollback_command := some "echo \x27Planning failed - rollback to analysis\x27" }
  | .implementation =>
    { stage := .implementation
      command := "claude-flow swarm \x27Implement the project according to plan\x27"
      dependencies := [.planning]
      validation_check := some "check_implementation_output"
      rollback_command := some "rm -rf /tmp/\x7bproject_name\x7d && echo \x27Implementation rolled back\x27" }
  | .testing =>
    { stage := .testing
      command := "claude-flow sparc tdd \x27Run comprehensive tests\x27"
      dependencies := [.implementation]
      validation_check := some "check_testing_output"
      rollback_command := some "echo \x27Testing failed - rollback to implementation\x27" }
  | .deployment =>
    { stage := .deployment
      command := "claude-flow sparc devops \x27Deploy and verify\x27"
      dependencies := [.testing]
      validation_check := some "check_deployment_output"
      rollback_command := some "echo \x27Deployment failed - rollback to testing\x27" }

/-- Outcome of one external command dispatch (§6 command runner): a
process exit with captured streams, a timeout, or a raised exception
(`os.chdir`/`NameError`/..., caught by the `except Exception` arm). -/
inductive RunOutcome
  | exited (returncode : Nat) (stdout stderr : String) (duration : ℚ)
  | timedOut
  | raised (message : String)
deriving DecidableEq, Repr

/-- Python's `s.strip()` whitespace set. -/
def pyWhitespace : List Char := [' ', '\t', '\n', '\r', '\x0b', '\x0c']

/-- Python's `s.strip()`. -/
def pyStrip (s : String) : List Char :=
  ((s.toList.dropWhile (fun c => pyWhitespace.contains c)).reverse.dropWhile
    (fun c => pyWhitespace.contains c)).reverse

/-- `BBPFPipeline.validate_idea_structure` (the output check, not the
BBMC validator of the same name). -/
def outValidateIdeaStructure (output : String) : Bool :=
  hasSubS output.toList "is_valid: True"

/-- `BBPFPipeline.check_analysis_output`. -/
def checkAnalysisOutput (output : String) : Bool :=
  100 < (pyStrip output).length && hasSubS (pyLower output) "architecture"

/-- `BBPFPipeline.check_planning_output`. -/
def checkPlanningOutput (output : String) : Bool :=
  hasSubS (pyLower output) "plan" || hasSubS (pyLower output) "steps"

/-- `BBPFPipeline.check_implementation_output`. -/
def checkImplementationOutput (output : String) : Bool :=
  hasSubS (pyLower output) "created" || hasSubS (pyLower output) "generated"

/-- `BBPFPipeline.check_testing_output`. -/
def checkTestingOutput (output : String) : Bool :=
  hasSubS (pyLower output) "passed" || hasSubS (pyLower output) "success"

/-- `BBPFPipeline.check_deployment_output`. -/
def checkDeploymentOutput (output : String) : Bool :=
  hasSubS (pyLower output) "deployed" || hasSubS (pyLower output) "running"

/-- `getattr(self, step.validation_check, None)`: resolve a named check
to its method; the six registered names all resolve. -/
def namedCheck (name : String) (output : String) : Option Bool :=
  if name = "validate_idea_structure" then some (outValidateIdeaStructure output)
  else if name = "check_analysis_output" then some (checkAnalysisOutput output)
  else if name = "check_planning_output" then some (checkPlanningOutput output)
  else if name = "check_implementation_output" then some (checkImplementationOutput output)
  else if name = "check_testing_output" then some (checkTestingOutput output)
  else if name = "check_deployment_output" then some (checkDeploymentOutput output)
  else none

/-- The default validation of `_validate_step_output`: the output must
not contain any of `error`, `failed`, `exception`, `timeout`
(case-insensitive). -/
def defaultOutputCheck (output : String) : Bool :=
  ¬ (["error", "failed", "exception", "timeout"].any
      (fun w => hasSubS (pyLower output) w))

/-- `BBPFPipeline._validate_step_output`. -/
def validateStepOutput (step : PipelineStep) (output : String) : Bool :=
  match step.validation_check with
  | some name =>
    match namedCheck name output with
    | some b => b
    | none => defaultOutputCheck output
  | none => defaultOutputCheck output

/-- `BBPFPipeline._execute_step`, with the external `subprocess.run`
dispatch abstracted by a runner oracle keyed on the command text. -/
def execStep (runner : String → RunOutcome) (step : PipelineStep) :
    PipelineResult :=
  match runner step.command with
  | .exited 0 out _ dur =>
    { stage := step.stage, status := .success, output := out,
      execution_time := dur }
  | .exited (_ + 1) out err dur =>
    { stage := step.stage, status := .failed, output := out,
      error := some err, execution_time := dur }
  | .timedOut =>
    { stage := step.stage, status := .failed, output := "",
      error := some ("Timeout after " ++ toString step.timeout ++ " seconds"),
      execution_time := (step.timeout : ℚ) }
  | .raised msg =>
    { stage := step.stage, status := .failed, output := "",
      error := some msg, execution_time := 0 }

/-- Lookup in the ordered result map `self.results`. -/
def lookupRes : List (PipelineStage × PipelineResult) → PipelineStage →
    Option PipelineResult
  | [], _ => none
  | (s, r) :: t, q => if s = q then some r else lookupRes t q

/-- `BBPFPipeline._check_dependencies`. -/
def checkDependencies (results : List (PipelineStage × PipelineResult))
    (dependencies : List PipelineStage) : Bool :=
  dependencies.all (fun dep =>
    match lookupRes results dep with
    | some r => r.status == .success
    | none => false)

/-- The backward search of `BBPFPipeline._rollback_stage`: walk
`reversed(list(PipelineStage))`, `break` (yielding no stage) on reaching
the failed stage, otherwise stop at the first recorded `success`. -/
def findRollbackStage (results : List (PipelineStage × PipelineResult))
    (failed_stage : PipelineStage) : List PipelineStage → Option PipelineStage
  | [] => none
  | s :: rest =>
      if s = failed_stage then none
      else
        match lookupRes results s with
        | some r =>
          if r.status = .success then some s
          else findRollbackStage results failed_stage rest
        | none => findRollbackStage results failed_stage rest

/-- Pipeline state: the ordered result map plus an observation log of the
rollback commands the routine dispatched to `subprocess.run`. -/
structure PipelineState where
  results : List (PipelineStage × PipelineResult) := []
  rollbacksRun : List String := []
deriving DecidableEq, Repr

/-- `BBPFPipeline._rollback_stage`: find the previous successful stage
and run its rollback command (recorded in `rollbacksRun`); with no such
stage, do nothing. -/
def rollbackStage (st : PipelineState) (failed_stage : PipelineStage) :
    PipelineState :=
  match findRollbackStage st.results failed_stage stageList.reverse with
  | some prev =>
    match (pipelineSteps prev).rollback_command with
    | some cmd => { st with rollbacksRun := st.rollbacksRun ++ [cmd] }
    | none => st
  | none => st

/-- The stage loop of `BBPFPipeline.execute_pipeline`. -/
def execLoop (runner : String → RunOutcome) :
    List PipelineStage → PipelineState → PipelineState
  | [], st => st
  | stage :: rest, st =>
    let step := pipelineSteps stage
    if ¬ checkDependencies st.results step.dependencies = true then st
    else
      let result := execStep runner step
      let st1 : PipelineState := { st with results := st.results ++ [(stage, result)] }
      if result.status = .success ∧ ¬ validateStepOutput step result.output = true then
        rollbackStage st1 stage
      else if result.status = .failed then
        rollbackStage st1 stage
      else
        execLoop runner rest st1

/-- `BBPFPipeline.execute_pipeline`. -/
def executePipeline (runner : String → RunOutcome) : PipelineState :=
  execLoop runner stageList {}

/-! ## Spec-side definitions

These follow the spec's words, for the refinement-style comparisons; they
are deliberately distinct from the embeddings above. -/

/-- Modelled from the spec: priority ordered `critical > high > medium >
low` as a numeric rank. -/
def specPriorityRank : AttentionPriority → Nat
  | .critical => 3
  | .high => 2
  | .medium => 1
  | .low => 0

/-- Modelled from the spec: the `(priority, impactScore)` key order with
`critical > high > medium > low`. -/
def specKeyLt (x y : AttentionTarget) : Bool :=
  specPriorityRank x.priority < specPriorityRank y.priority ||
    (specPriorityRank x.priority == specPriorityRank y.priority &&
      decide (x.impact_score < y.impact_score))

/-- Stable descending insertion for the spec-side sort. -/
def specInsertDesc (x : AttentionTarget) :
    List AttentionTarget → List AttentionTarget
  | [] => [x]
  | y :: ys => if specKeyLt x y then y :: specInsertDesc x ys else x :: y :: ys

/-- Spec-side stable descending sort by `(priority, impactScore)`. -/
def specSortTargetsDesc : List AttentionTarget → List AttentionTarget
  | [] => []
  | x :: xs => specInsertDesc x (specSortTargetsDesc xs)

/-- Modelled from the spec: "Return the top-5 targets sorted by
`(priority, impactScore)` descending, with priority ordered
`critical > high > medium > low`". -/
def specTopFive (clarity_score : ℚ) (complexity : String) :
    List AttentionTarget :=
  (specSortTargetsDesc (promoteTargets clarity_score complexity)).take 5

/-! ## Concrete scenario inputs -/

/-- An analysis stdout passing `check_analysis_output` (105 characters
once stripped, containing `architecture`). -/
def aOut : String :=
  "architecture xxxxxxxxxxxxxxxxxxxxxxxxxxxxxxxxxxxxxxxxxxxxxxxxxxxxxxxxxxxxxxxxxxxxxxxxxxxxxxxxxxxxxxxxxxxx"

/-- Command runner for the C1 scenario: Validation, Analysis and Planning
exit 0 with outputs passing their stage checks; Implementation's command
exits 1. -/
def c1Runner : String → RunOutcome := fun cmd =>
  if cmd = (pipelineSteps .validation).command then .exited 0 "is_valid: True" "" 1
  else if cmd = (pipelineSteps .analysis).command then .exited 0 aOut "" 1
  else if cmd = (pipelineSteps .planning).command then .exited 0 "plan: steps ready" "" 1
  else .exited 1 "" "build error" 1

/-- Command runner where every stage's command exits 0 with an output
passing that stage's check. -/
def okRunner : String → RunOutcome := fun cmd =>
  if cmd = (pipelineSteps .validation).command then .exited 0 "is_valid: True" "" 1
  else if cmd = (pipelineSteps .analysis).command then .exited 0 aOut "" 1
  else if cmd = (pipelineSteps .planning).command then .exited 0 "plan: steps ready" "" 1
  else if cmd = (pipelineSteps .implementation).command then .exited 0 "created the project" "" 1
  else if cmd = (pipelineSteps .testing).command then .exited 0 "all tests passed" "" 1
  else .exited 0 "deployed and running" "" 1

/-- The implementation-output text of end-to-end scenario 3 (spec §8). -/
def implOutputC7 : String :=
  "Created a Python-based analytics platform using Django and SQLite. Batch processing. Single server deployment."

/-- A concrete idea mentioning `real-time` and `distributed` and no other
architecture or technology keyword. -/
def ideaC7 : String := "real-time distributed"

/-- The single contradiction that `detect_contradictions` emits for the
C7 scenario texts: `real-time` is required by the idea, absent from the
implementation output, and all three of its constraint components are
missing. -/
def rtContradiction : Contradiction where
  type := .architecture_mismatch
  severity := .high
  description := "Missing architecture components for real-time"
  detected_in := "architecture_analysis"
  expected := "Architecture real-time with components: [\x27websockets\x27, \x27low-latency\x27, \x27persistent-connections\x27]"
  actual := "Missing: [\x27websockets\x27, \x27low-latency\x27, \x27persistent-connections\x27]"
  rollback_action := "Add missing architecture components"

/-- Dependency-and-ordering soundness of a recorded result map: every
recorded stage's dependencies are recorded with status `success`. -/
def DepOK (res : List (PipelineStage × PipelineResult)) : Prop :=
  ∀ p ∈ res, ∀ d ∈ (pipelineSteps p.1).dependencies,
    ∃ rd, lookupRes res d = some rd ∧ rd.status = .success

/-! ## Theorems -/

/-- A keyword list has an `any` hit exactly when at least one keyword is
counted by `countHits`. -/
theorem any_hasSub_iff_countHits (low : List Char) (kws : List String) :
    (kws.any (fun i => hasSubS low i)) = true ↔ 1 ≤ countHits low kws := by
  rw [List.any_eq_true]
  constructor
  · rintro ⟨a, ha, hp⟩
    have hm : a ∈ kws.filter (fun w => hasSubS low w) := List.mem_filter.mpr ⟨ha, hp⟩
    have := List.length_pos.mpr (List.ne_nil_of_mem hm)
    simpa [countHits] using this
  · intro h
    have : 0 < (kws.filter (fun w => hasSubS low w)).length := by
      simpa [countHits] using h
    rcases List.exists_mem_of_length_pos this with ⟨a, ha⟩
    exact ⟨a, (List.mem_filter.mp ha).1, (List.mem_filter.mp ha).2⟩

/-- The missing-element accumulator of `validate_idea_structure` collects
exactly the unmatched categories, in table order. -/
theorem collectElements_fst (low : List Char) :
    ∀ l : List (String × List String),
      (collectElements low l).1 =
        (l.filter (fun p => ! anyKeyword low p.2)).map Prod.fst
  | [] => rfl
  | (name, alts) :: rest => by
    simp only [collectElements, List.filter_cons]
    cases h : anyKeyword low alts <;>
      simp [h, collectElements_fst low rest]

/-- The found-element accumulator of `validate_idea_structure` has as
many entries as there are matched categories. -/
theorem collectElements_snd_length (low : List Char) :
    ∀ l : List (String × List String),
      (collectElements low l).2.length =
        (l.filter (fun p => anyKeyword low p.2)).length
  | [] => rfl
  | (name, alts) :: rest => by
    simp only [collectElements, List.filter_cons]
    cases h : anyKeyword low alts <;>
      simp [h, collectElements_snd_length low rest]

/-- `_needs_rollback` decides exactly "one critical, or two high". -/
theorem needsRollback_iff (cs : List Contradiction) :
    needsRollback cs = true ↔
      (∃ c ∈ cs, c.severity = .critical) ∨
        2 ≤ (cs.filter (fun c => c.severity == ContradictionSeverity.high)).length := by
  unfold needsRollback
  split_ifs with h1 h2
  · simp only [true_iff]
    left
    rw [List.isEmpty_eq_false_iff_exists_mem] at h1
    rcases h1 with ⟨c, hc⟩
    have hmem := List.mem_filter.mp hc
    exact ⟨c, hmem.1, by simpa using hmem.2⟩
  · simp only [true_iff]
    right
    exact h2
  · simp only [Bool.false_eq_true, false_iff]
    push_neg
    constructor
    · intro c hc hcrit
      have hne : ¬ (cs.filter
          (fun c => c.severity == ContradictionSeverity.critical)).isEmpty = false := h1
      rw [Bool.not_eq_false, List.isEmpty_iff] at hne
      have : c ∈ cs.filter (fun c => c.severity == ContradictionSeverity.critical) :=
        List.mem_filter.mpr ⟨hc, by simpa using hcrit⟩
      rw [hne] at this
      simp at this
    · omega

/-- `lookupRes` hits are entries of the result map. -/
theorem lookupRes_some_mem {res : List (PipelineStage × PipelineResult)}
    {s : PipelineStage} {r : PipelineResult} (h : lookupRes res s = some r) :
    (s, r) ∈ res := by
  induction res with
  | nil => simp [lookupRes] at h
  | cons p t ih =>
    rcases p with ⟨s0, r0⟩
    by_cases hs : s0 = s
    · subst hs
      simp [lookupRes] at h
      subst h
      exact List.mem_cons_self _ _
    · simp [lookupRes, hs] at h
      exact List.mem_cons_of_mem _ (ih h)

/-- A stage among the recorded keys has a `lookupRes` hit. -/
theorem mem_keys_lookup {res : List (PipelineStage × PipelineResult)}
    {s : PipelineStage} (h : s ∈ res.map Prod.fst) :
    ∃ r, lookupRes res s = some r := by
  induction res with
  | nil => simp at h
  | cons p t ih =>
    rcases p with ⟨s0, r0⟩
    by_cases hs : s0 = s
    · subst hs
      exact ⟨r0, by simp [lookupRes]⟩
    · simp only [List.map_cons, List.mem_cons] at h
      rcases h with h | h
      · exact absurd h.symm hs
      · rcases ih h with ⟨r, hr⟩
        exact ⟨r, by simp [lookupRes, hs, hr]⟩

/-- Recording a further stage preserves earlier lookups. -/
theorem lookupRes_append_some {res l : List (PipelineStage × PipelineResult)}
    {s : PipelineStage} {r : PipelineResult} (h : lookupRes res s = some r) :
    lookupRes (res ++ l) s = some r := by
  induction res with
  | nil => simp [lookupRes] at h
  | cons p t ih =>
    rcases p with ⟨s0, r0⟩
    by_cases hs : s0 = s
    · subst hs
      simpa [lookupRes] using h
    · simp [lookupRes, hs] at h ⊢
      exact ih h

/-- Membership in a prefix of the stage order is a position bound. -/
theorem mem_stageList_take (s : PipelineStage) (m : Nat) :
    s ∈ stageList.take m ↔ stageIdx s < m := by
  cases s <;>
    rcases m with _ | _ | _ | _ | _ | _ | m <;>
      simp [stageList, stageIdx, List.take_succ_cons]

/-- The head of `stageList.drop n` sits at position `n`. -/
theorem stageIdx_of_drop {n : Nat} {s : PipelineStage} {rest : List PipelineStage}
    (h : stageList.drop n = s :: rest) : stageIdx s = n := by
  rcases n with _ | _ | _ | _ | _ | _ | n <;>
    simp [stageList] at h <;> simp [stageIdx, h.1.symm]

/-- A passing `_check_dependencies` means every dependency is recorded
with status `success`. -/
theorem checkDependencies_spec {res : List (PipelineStage × PipelineResult)}
    {deps : List PipelineStage} (h : checkDependencies res deps = true) :
    ∀ d ∈ deps, ∃ rd, lookupRes res d = some rd ∧ rd.status = .success := by
  intro d hd
  rw [checkDependencies, List.all_eq_true] at h
  have := h d hd
  rcases hl : lookupRes res d with _ | rd
  · rw [hl] at this
    simp at this
  · rw [hl] at this
    simp at this
    exact ⟨rd, rfl, this⟩

/-- `_rollback_stage` never touches the recorded results. -/
theorem rollbackStage_results (st : PipelineState) (f : PipelineStage) :
    (rollbackStage st f).results = st.results := by
  unfold rollbackStage
  rcases h : findRollbackStage st.results f stageList.reverse with _ | prev
  · rfl
  · rcases h2 : (pipelineSteps prev).rollback_command with _ | cmd <;> simp [h2]

/-- `_execute_step` only ever reports `success` or `failed`. -/
theorem execStep_status (runner : String → RunOutcome) (step : PipelineStep) :
    (execStep runner step).status = .success ∨ (execStep runner step).status = .failed := by
  unfold execStep
  rcases runner step.command with ⟨rc, out, err, dur⟩ | _ | msg
  · rcases rc with _ | rc <;> simp
  · simp
  · simp

/-- One unfolding of the stage loop. -/
theorem execLoop_cons (runner : String → RunOutcome) (stage : PipelineStage)
    (rest : List PipelineStage) (st : PipelineState) :
    execLoop runner (stage :: rest) st =
      (if checkDependencies st.results (pipelineSteps stage).dependencies = true then
        (fun result =>
          (fun st1 =>
            if result.status = PipelineStatus.success ∧
                ¬ validateStepOutput (pipelineSteps stage) result.output = true then
              rollbackStage st1 stage
            else if result.status = PipelineStatus.failed then
              rollbackStage st1 stage
            else execLoop runner rest st1)
          { st with results := st.results ++ [(stage, result)] })
        (execStep runner (pipelineSteps stage))
      else st) := by
  by_cases h : checkDependencies st.results (pipelineSteps stage).dependencies = true <;>
    simp [execLoop, h]

/-- Loop invariant of `execute_pipeline`: starting from a prefix of
all-successful results whose dependencies are satisfied, the loop ends
with (i) keys forming a stage-order prefix, (ii) every recorded entry
successful except possibly the one the run halted on, and (iii) every
recorded entry's dependencies recorded successful. -/
theorem execLoop_final (runner : String → RunOutcome) :
    ∀ (rem : List PipelineStage) (st : PipelineState) (n : Nat),
      st.results.map Prod.fst = stageList.take n →
      stageList.drop n = rem →
      (∀ p ∈ st.results, p.2.status = PipelineStatus.success) →
      DepOK st.results →
      ∃ m, (execLoop runner rem st).results.map Prod.fst = stageList.take m ∧
        (∀ p ∈ (execLoop runner rem st).results,
           p.2.status = PipelineStatus.success ∨
             (execLoop runner rem st).results.map Prod.fst =
               stageList.take (stageIdx p.1 + 1)) ∧
        DepOK (execLoop runner rem st).results := by
  intro rem
  induction rem with
  | nil =>
    intro st n hkeys hdrop hsucc hdep
    exact ⟨n, by simpa [execLoop] using hkeys,
      fun p hp => Or.inl (hsucc p (by simpa [execLoop] using hp)),
      by simpa [execLoop] using hdep⟩
  | cons stage rest ih =>
    intro st n hkeys hdrop hsucc hdep
    have hidx : stageIdx stage = n := stageIdx_of_drop hdrop
    rw [execLoop_cons]
    by_cases hdeps : checkDependencies st.results (pipelineSteps stage).dependencies = true
    case neg =>
      rw [if_neg hdeps]
      exact ⟨n, hkeys, fun p hp => Or.inl (hsucc p hp), hdep⟩
    case pos =>
      rw [if_pos hdeps]
      simp only []
      generalize hres : execStep runner (pipelineSteps stage) = result
      have hstat : result.status = PipelineStatus.success ∨
          result.status = PipelineStatus.failed := by
        rw [← hres]; exact execStep_status runner (pipelineSteps stage)
      set st1 : PipelineState := { st with results := st.results ++ [(stage, result)] }
        with hst1
      have hkeys1 : st1.results.map Prod.fst = stageList.take (n + 1) := by
        have htake : stageList.take (n + 1) = stageList.take n ++ [stage] := by
          rw [List.take_add, hdrop]
          rfl
        simp [hst1, htake, hkeys]
      have hdep1 : DepOK st1.results := by
        intro p hp d hd
        have hp2 : p ∈ st.results ∨ p = (stage, result) := by simpa [hst1] using hp
        rcases hp2 with hpold | hpe
        · rcases hdep p hpold d hd with ⟨rd, hrd, hrds⟩
          exact ⟨rd, by simpa [hst1] using lookupRes_append_some hrd, hrds⟩
        · subst hpe
          rcases checkDependencies_spec hdeps d hd with ⟨rd, hrd, hrds⟩
          exact ⟨rd, by simpa [hst1] using lookupRes_append_some hrd, hrds⟩
      have hentry1 : ∀ p ∈ st1.results,
          p.2.status = PipelineStatus.success ∨
            st1.results.map Prod.fst = stageList.take (stageIdx p.1 + 1) := by
        intro p hp
        have hp2 : p ∈ st.results ∨ p = (stage, result) := by simpa [hst1] using hp
        rcases hp2 with hpold | hpe
        · exact Or.inl (hsucc p hpold)
        · subst hpe
          rcases hstat with hs | hf
          · exact Or.inl hs
          · right
            rw [hidx]
            exact hkeys1
      by_cases hval : validateStepOutput (pipelineSteps stage) result.output = true
      · rcases hstat with hs | hf
        · rw [if_neg (by simp [hval]), if_neg (by simp [hs])]
          have hdrop1 : stageList.drop (n + 1) = rest := by
            have h1 := congrArg (List.drop 1) hdrop
            rw [List.drop_drop] at h1
            simpa using h1
          have hsucc1 : ∀ p ∈ st1.results, p.2.status = PipelineStatus.success := by
            intro p hp
            have hp2 : p ∈ st.results ∨ p = (stage, result) := by simpa [hst1] using hp
            rcases hp2 with hpold | hpe
            · exact hsucc p hpold
            · subst hpe
              exact hs
          exact ih st1 (n + 1) hkeys1 hdrop1 hsucc1 hdep1
        · rw [if_neg (by simp [hval]), if_pos hf]
          refine ⟨n + 1, ?_, ?_, ?_⟩
          · rw [rollbackStage_results]; exact hkeys1
          · intro p hp
            rw [rollbackStage_results] at hp
            rcases hentry1 p hp with h | h
            · exact Or.inl h
            · right
              rw [rollbackStage_results]
              exact h
          · intro p hp d hd
            rw [rollbackStage_results] at hp
            rcases hdep1 p hp d hd with ⟨rd, hrd, hrds⟩
            exact ⟨rd, by rw [rollbackStage_results]; exact hrd, hrds⟩
      · have hhalt : (if result.status = PipelineStatus.success ∧
              ¬ validateStepOutput (pipelineSteps stage) result.output = true then
            rollbackStage st1 stage
          else if result.status = PipelineStatus.failed then
            rollbackStage st1 stage
          else execLoop runner rest st1) = rollbackStage st1 stage := by
          rcases hstat with hs | hf
          · rw [if_pos ⟨hs, hval⟩]
          · rw [if_neg (by simp [hf]), if_pos hf]
        rw [hhalt]
        refine ⟨n + 1, ?_, ?_, ?_⟩
        · rw [rollbackStage_results]; exact hkeys1
        · intro p hp
          rw [rollbackStage_results] at hp
          rcases hentry1 p hp with h | h
          · exact Or.inl h
          · right
            rw [rollbackStage_results]
            exact h
        · intro p hp d hd
          rw [rollbackStage_results] at hp
          rcases hdep1 p hp d hd with ⟨rd, hrd, hrds⟩
          exact ⟨rd, by rw [rollbackStage_results]; exact hrd, hrds⟩

/-! ## Claim theorems -/

/-- C1: in the run where Validation, Analysis and Planning succeed and
Implementation's command fails, the recorded results show Planning
successful and Implementation failed, Planning's declared rollback
command exists — yet `_rollback_stage` executes no rollback command at
all: its backward scan over `reversed(list(PipelineStage))` breaks on
reaching the failed stage before ever examining the earlier stages, so
the claimed "run the nearest preceding successful stage's rollback
command" behaviour never happens. -/
theorem claimC1_rollback_never_fires :
    lookupRes (executePipeline c1Runner).results .planning =
      some { stage := .planning, status := .success, output := "plan: steps ready",
             error := none, execution_time := 1 } ∧
    (lookupRes (executePipeline c1Runner).results .implementation).map
      (fun r => r.status) = some .failed ∧
    (pipelineSteps .planning).rollback_command =
      some "echo \x27Planning failed - rollback to analysis\x27" ∧
    findRollbackStage (executePipeline c1Runner).results .implementation
      stageList.reverse = none ∧
    (executePipeline c1Runner).rollbacksRun = [] :=
  ⟨rfl, rfl, rfl, rfl, rfl⟩

/-- C2 (counterexample): for the description `"api"` the validator's own
assessed complexity is `medium`, yet the validator suggests 7 agents
(one parallelism keyword suffices for its `swarm` branch) while the
optimizer's re-derivation with the same complexity hint suggests 5 — the
two derivations are not behaviorally identical. -/
theorem claimC2_counterexample :
    assessComplexity "api" = .medium ∧
    (suggestTopology (assessComplexity "api") "api").2 = 7 ∧
    (determineOptimalTopology "medium" "api").agent_count = 5 ∧
    (suggestTopology (assessComplexity "api") "api").2 ≠
      (determineOptimalTopology "medium" "api").agent_count := by
  refine ⟨rfl, rfl, rfl, by decide⟩

/-- C2 (amended): of the three re-derived quantities only the SPARC-mode
derivations are behaviorally identical — the validator's
`_suggest_sparc_mode` and the attention manager's
`_determine_optimal_sparc_mode` agree on every description; the topology
and agent-count derivations differ (see the counterexample). -/
theorem claimC2_sparc_modes_agree (idea : String) :
    suggestSparcMode idea = determineOptimalSparcMode idea := by
  have htab : sparcModeKeywords = bbamModeKeywords := rfl
  simp only [suggestSparcMode, determineOptimalSparcMode, htab]
  cases h : (firstMax (modeScores bbamModeKeywords (pyLower idea))).2 <;> simp [h]

/-- C3: for every clarity score and complexity string the run-time
priority promotion leaves the shared attention-target catalog unchanged:
the promotion writes `critical` only to the `idea_clarity` and
`topology_optimization` entries, which already carry priority `critical`
in the catalog, so every entry is equal, field for field, before and
after the promotion pass. -/
theorem claimC3_catalog_unchanged (clarity : ℚ) (complexity : String) :
    promoteTargets clarity complexity = attentionTargets := by
  simp only [promoteTargets, attentionTargets, List.map_cons, List.map_nil, promoteTarget]
  simp

/-- C4: the prioritization step does NOT order by
`critical > high > medium > low`: `sorted(..., key=(priority.value,
impact_score), reverse=True)` compares the priorities' *string* values,
so `"medium" > "low" > "high" > "critical"` and (for clarity 1,
complexity `simple`) the returned top five are the medium- and
low-priority targets followed by one high — while the spec-side order
puts the three critical targets first.  The two results differ, so the
claim fails on the code. -/
theorem claimC4_sorted_by_string_value :
    (getAttentionPriorities 1 "simple").map (fun t => t.name) =
      ["progress_tracking", "resource_monitoring", "logging", "documentation",
       "agent_coordination"] ∧
    (specTopFive 1 "simple").map (fun t => t.name) =
      ["idea_clarity", "sparc_mode_selection", "topology_optimization",
       "agent_coordination", "memory_management"] ∧
    (getAttentionPriorities 1 "simple").map (fun t => t.name) ≠
      (specTopFive 1 "simple").map (fun t => t.name) := by
  have h1 : (getAttentionPriorities 1 "simple").map (fun t => t.name) =
      ["progress_tracking", "resource_monitoring", "logging", "documentation",
       "agent_coordination"] := by
    norm_num [getAttentionPriorities, promoteTargets, attentionTargets, promoteTarget,
      sortTargetsDesc, insertDesc, sortKeyLt, AttentionPriority.pyValue, strLtChars, pyLower]
    decide
  have h2 : (specTopFive 1 "simple").map (fun t => t.name) =
      ["idea_clarity", "sparc_mode_selection", "topology_optimization",
       "agent_coordination", "memory_management"] := by
    norm_num [specTopFive, promoteTargets, attentionTargets, promoteTarget,
      specSortTargetsDesc, specInsertDesc, specKeyLt, specPriorityRank, pyLower]
  refine ⟨h1, h2, ?_⟩
  rw [h1, h2]
  decide

/-- C5 (counterexample): for the description `"api"` the assessed
complexity is `medium` and there is exactly one parallelism-keyword hit,
so the claim predicts `swarm` with 5 agents — but the validator returns
`swarm` with 7 agents (its `_suggest_topology` takes the `swarm` branch
on *any* parallelism hit and returns the constant 7, not
`min(8, 5+complexityScore)`). -/
theorem claimC5_counterexample :
    assessComplexity "api" = .medium ∧
    countHits (pyLower "api") parallelIndicators = 1 ∧
    (validateIdeaStructure "api").suggested_topology = "swarm" ∧
    (validateIdeaStructure "api").estimated_agents = 7 ∧
    (validateIdeaStructure "api").estimated_agents ≠ 5 := by
  refine ⟨rfl, rfl, rfl, rfl, by decide⟩

/-- C5 (amended): for every description, the validator suggests `swarm`
with 7 agents when the assessed complexity is `complex` or the
description has at least ONE parallelism-keyword hit; otherwise `swarm`
with 5 agents when the complexity is `medium`; otherwise `hive` with 3
agents. -/
theorem claimC5_topology_characterization (idea : String) :
    ((validateIdeaStructure idea).suggested_topology,
      (validateIdeaStructure idea).estimated_agents) =
      (if assessComplexity idea = .complex ∨
          1 ≤ countHits (pyLower idea) parallelIndicators then ("swarm", 7)
       else if assessComplexity idea = .medium then ("swarm", 5)
       else ("hive", 3)) := by
  simp only [validateIdeaStructure, suggestTopology]
  cases hc : assessComplexity idea <;>
    cases hp : parallelIndicators.any (fun i => hasSubS (pyLower idea) i) <;>
      simp [hc, hp, ← any_hasSub_iff_countHits]

/-- C6 (counterexample): the description
`"users goal input output runtime"` matches all five completeness
categories and triggers neither bonus nor penalty, so the claim predicts
clarity `5/5 = 1`; the code returns `5/6`, because its base score
divides by SIX categories (the five completeness categories plus
`technical_details`). -/
theorem claimC6_counterexample :
    analyzeIdeaClarity "users goal input output runtime" = 5 / 6 ∧
    (requiredElements.filter
      (fun p => anyKeyword (pyLower "users goal input output runtime") p.2)).length = 5 ∧
    ((5 : ℚ) / 6) ≠ 1 := by
  refine ⟨?_, by decide, by norm_num⟩
  have h5 : ((clarityIndicators.filter
      (fun p => anyKeyword (pyLower "users goal input output runtime") p.2)).length : ℚ)
      = 5 := by decide
  have hb : anyKeyword (pyLower "users goal input output runtime")
      ["technical", "architecture", "framework"] = false := by decide
  have hv : anyKeyword (pyLower "users goal input output runtime")
      ["something", "anything", "whatever"] = false := by decide
  simp only [analyzeIdeaClarity, hb, hv, h5, Bool.false_eq_true, if_false]
  norm_num [pyMin, pyMax, clarityIndicators, requiredElements]

/-- C6 (amended): for every description, the clarity score equals the
fraction of SIX categories matched — the five completeness categories
plus a technical-details category (`api|database|framework|language|
architecture`) — plus the 0.1 architecture/technical bonus, minus the
0.1 vagueness penalty, clamped to [0, 1]. -/
theorem claimC6_clarity_formula (idea : String) :
    analyzeIdeaClarity idea =
      pyMin 1 (pyMax 0 (
        (((requiredElements.filter (fun p => anyKeyword (pyLower idea) p.2)).length
          + (if anyKeyword (pyLower idea)
               ["api", "database", "framework", "language", "architecture"] = true
             then 1 else 0) : ℚ)) / 6
        + (if anyKeyword (pyLower idea) ["technical", "architecture", "framework"] = true
           then (0.1 : ℚ) else 0)
        - (if anyKeyword (pyLower idea) ["something", "anything", "whatever"] = true
           then (0.1 : ℚ) else 0))) := by
  simp only [analyzeIdeaClarity, clarityIndicators, List.filter_append, List.length_append]
  cases h : anyKeyword (pyLower idea)
      ["api", "database", "framework", "language", "architecture"] <;>
    simp [h, List.filter, requiredElements]

/-- C7 (counterexample): the concrete idea `"real-time distributed"`
contains the keywords `real-time` and `distributed` and no other
architecture or technology keyword of the engine's fixed lists, yet
`resolve` on the scenario-3 implementation output returns
`needs_rollback = false` (the run yields exactly one high-severity
contradiction, below the two-high threshold), refuting the claimed
`needsRollback = true`. -/
theorem claimC7_counterexample :
    hasSubS (pyLower ideaC7) "real-time" = true ∧
    hasSubS (pyLower ideaC7) "distributed" = true ∧
    (archKeywords.all (fun k =>
      k == "real-time" || k == "distributed" || ! hasSubS (pyLower ideaC7) k)) = true ∧
    (techKeywords.all (fun k => ! hasSubS (pyLower ideaC7) k)) = true ∧
    (resolveContradictions ideaC7 implOutputC7).needs_rollback = false := by
  refine ⟨by decide, by decide, by decide, by decide, by decide⟩

/-- C7 (amended): for every idea text containing `real-time` and
`distributed` and no other architecture or technology keyword, `resolve`
against the scenario-3 implementation output produces at least one
`architectureMismatch` contradiction of high severity (from `real-time`'s
missing constraint components), but returns `needsRollback = false`: the
single high-severity contradiction does not reach the one-critical /
two-high rollback threshold. -/
theorem claimC7_scenario_amended (idea : String)
    (h1 : hasSubS (pyLower idea) "real-time" = true)
    (h2 : hasSubS (pyLower idea) "distributed" = true)
    (h3 : ∀ k ∈ archKeywords, k ≠ "real-time" → k ≠ "distributed" →
        hasSubS (pyLower idea) k = false)
    (h4 : ∀ k ∈ techKeywords, hasSubS (pyLower idea) k = false) :
    (∃ c ∈ (resolveContradictions idea implOutputC7).contradictions,
        c.type = .architecture_mismatch ∧ c.severity = .high) ∧
    (resolveContradictions idea implOutputC7).needs_rollback = false := by
  have htech : extractTechnologies idea = [] := by
    unfold extractTechnologies
    exact List.filter_eq_nil_iff.mpr (fun k hk => by simp [h4 k hk])
  have harch : extractArchitectureRequirements idea = ["real-time", "distributed"] := by
    have hmi := h3 "microservices" (by decide) (by decide) (by decide)
    have hmo := h3 "monolith" (by decide) (by decide) (by decide)
    have hse := h3 "serverless" (by decide) (by decide) (by decide)
    have hha := h3 "high-availability" (by decide) (by decide) (by decide)
    have hsc := h3 "scalable" (by decide) (by decide) (by decide)
    have hce := h3 "centralized" (by decide) (by decide) (by decide)
    unfold extractArchitectureRequirements archKeywords
    simp [List.filter_cons, h1, h2, hmi, hmo, hse, hha, hsc, hce]
  have hpat : patternContradictions implOutputC7 = [] := by decide
  have himplarch : extractArchitectureRequirements implOutputC7 = [] := by decide
  have htechC : checkTechnologyCompatibility idea implOutputC7 = [] := by
    simp only [checkTechnologyCompatibility]
    rw [htech]
    rfl
  have harchC : checkArchitectureConstraints idea implOutputC7 = [rtContradiction] := by
    simp only [checkArchitectureConstraints]
    rw [harch, himplarch]
    decide
  have hdet : detectContradictions idea implOutputC7 = [rtContradiction] := by
    unfold detectContradictions
    rw [hpat, htechC, harchC]
    rfl
  constructor
  · have hmem : rtContradiction ∈
        (resolveContradictions idea implOutputC7).contradictions := by
      simp only [resolveContradictions, hdet]
      exact List.mem_singleton.mpr rfl
    exact ⟨_, hmem, rfl, rfl⟩
  · simp only [resolveContradictions, hdet]
    decide

/-- C7 (witness): the amended theorem applied to the concrete idea
`"real-time distributed"`. -/
theorem claimC7_scenario_witness :
    (∃ c ∈ (resolveContradictions ideaC7 implOutputC7).contradictions,
        c.type = .architecture_mismatch ∧ c.severity = .high) ∧
    (resolveContradictions ideaC7 implOutputC7).needs_rollback = false :=
  claimC7_scenario_amended ideaC7 (by decide) (by decide) (by decide) (by decide)

/-- C8: for every description, `validate_idea_structure` reports
`is_valid = true` exactly when at least 3 of the 5 required-element
categories match, and `missing_elements` is exactly the list of
categories that did not match (in the catalog's order). -/
theorem claimC8_valid_iff_three_of_five (idea : String) :
    ((validateIdeaStructure idea).is_valid = true ↔
      3 ≤ (requiredElements.filter (fun p => anyKeyword (pyLower idea) p.2)).length) ∧
    (validateIdeaStructure idea).missing_elements =
      (requiredElements.filter (fun p => ! anyKeyword (pyLower idea) p.2)).map Prod.fst := by
  constructor
  · simp [validateIdeaStructure, collectElements_snd_length]
  · simp [validateIdeaStructure, collectElements_fst]

/-- C9: for every idea text and implementation output,
`resolve_contradictions` returns `needs_rollback = true` exactly when
the detected list holds at least one critical-severity contradiction or
at least two high-severity contradictions, and `can_proceed` is always
the Boolean negation of `needs_rollback`; in particular, zero
contradictions yield `needs_rollback = false`/`can_proceed = true`, and
a single critical contradiction yields `needs_rollback = true` whatever
the other severities. -/
theorem claimC9_rollback_decision (idea impl : String) :
    ((resolveContradictions idea impl).needs_rollback = true ↔
      (∃ c ∈ detectContradictions idea impl, c.severity = .critical) ∨
        2 ≤ ((detectContradictions idea impl).filter
              (fun c => c.severity == ContradictionSeverity.high)).length) ∧
    (resolveContradictions idea impl).can_proceed =
      ! (resolveContradictions idea impl).needs_rollback :=
  ⟨needsRollback_iff _, rfl⟩

/-- C10: in every pipeline execution, every stage with a recorded result
has all of its declared dependencies recorded with status `success`, and
every stage preceding a recorded stage in the pipeline order is itself
recorded with status `success` — so once a stage fails, no later stage
gets any recorded result. -/
theorem claimC10_dependency_gating (runner : String → RunOutcome)
    (s : PipelineStage) (r : PipelineResult)
    (h : lookupRes (executePipeline runner).results s = some r) :
    (∀ d ∈ (pipelineSteps s).dependencies,
        ∃ rd, lookupRes (executePipeline runner).results d = some rd ∧
          rd.status = PipelineStatus.success) ∧
    (∀ s2, stageIdx s2 < stageIdx s →
        ∃ r2, lookupRes (executePipeline runner).results s2 = some r2 ∧
          r2.status = PipelineStatus.success) := by
  have hfin := execLoop_final runner stageList {} 0 rfl rfl
    (by intro p hp; exact absurd hp (List.not_mem_nil p))
    (by intro p hp; exact absurd hp (List.not_mem_nil p))
  rw [show execLoop runner stageList {} = executePipeline runner from rfl] at hfin
  rcases hfin with ⟨m, hkeys, hentries, hdep⟩
  have hmem := lookupRes_some_mem h
  constructor
  · exact hdep (s, r) hmem
  · intro s2 hlt
    have hsin : s ∈ (executePipeline runner).results.map Prod.fst :=
      List.mem_map_of_mem Prod.fst hmem
    have hsidx : stageIdx s < m := by
      rw [hkeys] at hsin
      exact (mem_stageList_take s m).mp hsin
    have hs2in : s2 ∈ (executePipeline runner).results.map Prod.fst := by
      rw [hkeys]
      exact (mem_stageList_take s2 m).mpr (by omega)
    rcases mem_keys_lookup hs2in with ⟨r2, hr2⟩
    have hmem2 := lookupRes_some_mem hr2
    rcases hentries (s2, r2) hmem2 with hsucc2 | hend
    · exact ⟨r2, hr2, hsucc2⟩
    · exfalso
      rw [hend] at hsin
      have := (mem_stageList_take s (stageIdx s2 + 1)).mp hsin
      omega

/-- C10 (witness): the dependency-gating theorem applied to the
Implementation stage of a run where every command succeeds. -/
theorem claimC10_dependency_gating_witness :
    stageIdx PipelineStage.planning < stageIdx PipelineStage.implementation ∧
    (∃ r2, lookupRes (executePipeline okRunner).results PipelineStage.planning = some r2 ∧
        r2.status = PipelineStatus.success) :=
  ⟨by decide,
    (claimC10_dependency_gating okRunner .implementation
      { stage := .implementation, status := .success, output := "created the project",
        error := none, execution_time := 1 } rfl).2 .planning (by decide)⟩

end WFGY
